import Mathlib

/-!
Shallow embedding of the owockibot SDK (Python) in Lean 4.

Conventions of the embedding:
* JSON / Python values are modelled by `PyVal`; dictionaries by association
  lists (`PyDict`), looked up first-match like Python dicts.
* Python numbers: `int` is `Int`; `float` is modelled as an exact fraction
  (`PyFloat.finite num den`, value `num / den` with `den > 0` by convention)
  together with the non-finite values `inf`, `neginf`, `nan`.  The binary
  rounding of IEEE floats is below the granularity of every claim treated
  here, so arithmetic on floats is exact in the model.
* Instants (`datetime`) are modelled as microseconds since the Unix epoch
  (CPython stores microsecond precision); `datetime.fromtimestamp` is
  modelled in UTC (the local-offset shift is irrelevant to the ordering
  and arithmetic facts proved here) and rounds to microseconds.
* Fallible Python code returns `Except PyErr`; `raise KeyError(k)` from a
  missing dict key is `.error (.keyError k)`, `ValueError` is
  `.error (.valueError _)`, and so on.
* `decimal.Decimal` is modelled as `ℚ`: at the default 28-significant-digit
  context every division performed by this code base is exact for all
  values within precision, which covers every monetary value handled here.
-/

namespace Owockibot

/-! ## Python value model -/

/-- A Python `float`: an exact fraction `num / den` (with `den > 0` by
convention for all values the embedded code constructs), or one of the
non-finite values. -/
inductive PyFloat where
  | finite (num : Int) (den : Nat)
  | inf
  | neginf
  | nan

/-- A Python value as produced by `json.loads` (plus floats). -/
inductive PyVal where
  | null
  | bool (b : Bool)
  | int (n : Int)
  | float (f : PyFloat)
  | str (s : String)
  | list (xs : List PyVal)
  | dict (kvs : List (String × PyVal))

/-- A Python `Dict[str, Any]` as passed to the `from_dict` constructors. -/
abbrev PyDict := List (String × PyVal)

/-- The Python exceptions the embedded code can raise.  `missingFieldError`
is modelled from the spec: the spec's §4.2 names a `MissingFieldError` for
absent required fields, but no such class exists anywhere in the source
(`exceptions.py` defines only the `OwockibotError`/`APIError` hierarchy);
the constructor exists solely so that statements about it can be written,
and no definition in this file ever produces it. -/
inductive PyErr where
  | keyError (key : String)
  | typeError (msg : String)
  | valueError (msg : String)
  | overflowError (msg : String)
  | missingFieldError (field : String)

/-- Truthiness of a Python float (`0.0` is falsy, `inf`/`nan` truthy). -/
def PyFloat.truthy : PyFloat → Bool
  | .finite n _ => n != 0
  | _ => true

/-- Python truthiness of a value. -/
def PyVal.truthy : PyVal → Bool
  | .null => false
  | .bool b => b
  | .int n => n != 0
  | .float f => f.truthy
  | .str s => s != ""
  | .list xs => !xs.isEmpty
  | .dict kvs => !kvs.isEmpty

/-- `data.get(k)`: `none` when the key is absent. -/
def pyGet (d : PyDict) (k : String) : Option PyVal := d.lookup k

/-- `data[k]`: raises `KeyError(k)` when the key is absent. -/
def getItem (d : PyDict) (k : String) : Except PyErr PyVal :=
  match d.lookup k with
  | some v => .ok v
  | none => .error (.keyError k)

/-- Coerce to `str`; the dataclass fields are annotated `str` and the
embedding enforces the annotation (a region the claims never touch:
Python itself would store the raw value unchecked). -/
def asStr : PyVal → Except PyErr String
  | .str s => .ok s
  | _ => .error (.typeError "expected str")

/-- Coerce to `int` (see `asStr` on the annotation-enforcement boundary). -/
def asInt : PyVal → Except PyErr Int
  | .int n => .ok n
  | _ => .error (.typeError "expected int")

/-- Coerce to `bool`. -/
def asBool : PyVal → Except PyErr Bool
  | .bool b => .ok b
  | _ => .error (.typeError "expected bool")

/-- Coerce to a number (`int` or `float`), as a `PyFloat`. -/
def asNum : PyVal → Except PyErr PyFloat
  | .int n => .ok (.finite n 1)
  | .float f => .ok f
  | _ => .error (.typeError "expected number")

/-- Coerce to a list. -/
def asList : PyVal → Except PyErr (List PyVal)
  | .list xs => .ok xs
  | _ => .error (.typeError "expected list")

/-- Coerce to a dict. -/
def asDict : PyVal → Except PyErr PyDict
  | .dict kvs => .ok kvs
  | _ => .error (.typeError "expected dict")

/-- Coerce to a list of strings. -/
def asStrList (v : PyVal) : Except PyErr (List String) := do
  let xs ← asList v
  xs.mapM asStr

/-- Required string field: `data[k]` used as `str`. -/
def reqStr (d : PyDict) (k : String) : Except PyErr String := do
  asStr (← getItem d k)

/-- Required int field: `data[k]` used as `int`. -/
def reqInt (d : PyDict) (k : String) : Except PyErr Int := do
  asInt (← getItem d k)

/-- Optional string field: `data.get(k)`, `null`/absent giving `none`. -/
def optStr (d : PyDict) (k : String) : Except PyErr (Option String) :=
  match pyGet d k with
  | none => .ok none
  | some .null => .ok none
  | some (.str s) => .ok (some s)
  | some _ => .error (.typeError "expected str or null")

/-! ## Instants: the timestamp normalizer's target type -/

/-- A CPython `datetime`, as microseconds since the Unix epoch (UTC model). -/
abbrev Datetime := Int

/-- Whether a year is a Gregorian leap year. -/
def isLeapYear (y : Nat) : Bool :=
  (y % 4 == 0 && y % 100 != 0) || y % 400 == 0

/-- Number of days in a month. -/
def daysInMonth (y m : Nat) : Nat :=
  if m == 2 then (if isLeapYear y then 29 else 28)
  else if m == 4 || m == 6 || m == 9 || m == 11 then 30
  else 31

/-- Days from the civil date `y-m-d` to 1970-01-01 (Howard Hinnant's
`days_from_civil`; all divisions are on non-negative operands for the
validated year range 1..9999). -/
def daysFromCivil (y m d : Nat) : Int :=
  let yAdj : Int := if m ≤ 2 then (y : Int) - 1 else (y : Int)
  let era : Int := yAdj.tdiv 400
  let yoe : Int := yAdj - era * 400
  let mp : Int := if m > 2 then (m : Int) - 3 else (m : Int) + 9
  let doy : Int := (153 * mp + 2).tdiv 5 + (d : Int) - 1
  let doe : Int := yoe * 365 + yoe.tdiv 4 - yoe.tdiv 100 + doy
  era * 146097 + doe - 719468

/-- `datetime.min` (0001-01-01T00:00:00) in microseconds since the epoch. -/
def datetimeMin : Datetime := -62135596800000000

/-- `datetime.max` (9999-12-31T23:59:59.999999) in microseconds since the epoch. -/
def datetimeMax : Datetime := 253402300799999999

/-- Round-half-even division (CPython's rounding of a fractional timestamp
to whole microseconds); `den > 0`. -/
def roundHalfEvenDiv (num : Int) (den : Int) : Int :=
  let q := num.ediv den
  let r := num.emod den
  if 2 * r < den then q
  else if 2 * r > den then q + 1
  else if q.emod 2 == 0 then q else q + 1

/-- Whether the exact timestamp `num / den` seconds (with `den > 0`) lies in
the range `datetime.fromtimestamp` accepts. -/
def tsInRange (num : Int) (den : Nat) : Bool :=
  datetimeMin * (den : Int) ≤ num * 1000000 && num * 1000000 ≤ datetimeMax * (den : Int)

/-- `datetime.fromtimestamp` on the exact value `num / den` seconds
(`den > 0`): converts to microseconds (rounding half-even), raising a
`ValueError` outside the representable year range. -/
def fromtimestampFrac (num : Int) (den : Nat) : Except PyErr Datetime :=
  if tsInRange num den then .ok (roundHalfEvenDiv (num * 1000000) den)
  else .error (.valueError "year is out of range")

/-- `datetime.fromtimestamp` on a Python number. -/
def fromtimestampNum : PyFloat → Except PyErr Datetime
  | .finite num den => fromtimestampFrac num den
  | .inf => .error (.overflowError "cannot convert float infinity to integer")
  | .neginf => .error (.overflowError "cannot convert float infinity to integer")
  | .nan => .error (.valueError "cannot convert float NaN to integer")

/-! ## `datetime.fromisoformat` (an external stdlib routine, modelled)

The accepted grammar is the common `YYYY-MM-DD[*HH:MM[:SS[.ffffff]]][±HH:MM]`
subset of ISO-8601 that every supported CPython version parses; the result
is the instant in microseconds since the epoch, with a `+HH:MM`/`-HH:MM`
suffix applied as a UTC offset and a naive result read in the UTC model. -/

/-- Decimal digit of a character, if any. -/
def digitOf (c : Char) : Option Nat :=
  let n := c.toNat
  if 48 ≤ n && n ≤ 57 then some (n - 48) else none

/-- Parse exactly two decimal digits. -/
def parse2 : List Char → Option (Nat × List Char)
  | c1 :: c2 :: rest => do
    let d1 ← digitOf c1
    let d2 ← digitOf c2
    some (10 * d1 + d2, rest)
  | _ => none

/-- Parse exactly four decimal digits. -/
def parse4 : List Char → Option (Nat × List Char)
  | c1 :: c2 :: c3 :: c4 :: rest => do
    let d1 ← digitOf c1
    let d2 ← digitOf c2
    let d3 ← digitOf c3
    let d4 ← digitOf c4
    some (1000 * d1 + 100 * d2 + 10 * d3 + d4, rest)
  | _ => none

/-- Expect a given character. -/
def expectChar (c : Char) : List Char → Option (List Char)
  | c' :: rest => if c' = c then some rest else none
  | _ => none

/-- Parse up to six fractional-second digits (at least one), returning the
value in microseconds. -/
def parseFrac (cs : List Char) : Option (Nat × List Char) :=
  match cs with
  | c1 :: r1 =>
    match digitOf c1 with
    | none => none
    | some d1 =>
      match r1 with
      | c2 :: r2 =>
        match digitOf c2 with
        | none => some (d1 * 100000, r1)
        | some d2 =>
          match r2 with
          | c3 :: r3 =>
            match digitOf c3 with
            | none => some ((d1 * 10 + d2) * 10000, r2)
            | some d3 =>
              match r3 with
              | c4 :: r4 =>
                match digitOf c4 with
                | none => some ((d1 * 100 + d2 * 10 + d3) * 1000, r3)
                | some d4 =>
                  match r4 with
                  | c5 :: r5 =>
                    match digitOf c5 with
                    | none => some ((d1 * 1000 + d2 * 100 + d3 * 10 + d4) * 100, r4)
                    | some d5 =>
                      match r5 with
                      | c6 :: r6 =>
                        match digitOf c6 with
                        | none => some ((d1 * 10000 + d2 * 1000 + d3 * 100 + d4 * 10 + d5) * 10, r5)
                        | some d6 =>
                          some (d1 * 100000 + d2 * 10000 + d3 * 1000 + d4 * 100 + d5 * 10 + d6, r6)
                      | [] => some ((d1 * 1000 + d2 * 100 + d3 * 10 + d4) * 100 + d5 * 10, r5)
                  | [] => some ((d1 * 100 + d2 * 10 + d3) * 1000 + d4 * 100, r4)
              | [] => some ((d1 * 10 + d2) * 10000 + d3 * 1000, r3)
          | [] => some (d1 * 100000 + d2 * 10000, r2)
      | [] => some (d1 * 100000, r1)
  | [] => none

/-- Parse the optional `:SS[.ffffff]` tail of a time, in microseconds. -/
def parseSecFrac (cs : List Char) : Option (Nat × List Char) :=
  match expectChar ':' cs with
  | none => some (0, cs)
  | some r1 =>
    match parse2 r1 with
    | none => none
    | some (s, r2) =>
      if s ≥ 60 then none
      else
        match expectChar '.' r2 with
        | none => some (s * 1000000, r2)
        | some r3 =>
          match parseFrac r3 with
          | none => none
          | some (frac, r4) => some (s * 1000000 + frac, r4)

/-- Parse `HH:MM[:SS[.ffffff]]`, returning microseconds since midnight. -/
def parseTime (cs : List Char) : Option (Nat × List Char) := do
  let (h, r1) ← parse2 cs
  if h ≥ 24 then none else
  let r2 ← expectChar ':' r1
  let (mi, r3) ← parse2 r2
  if mi ≥ 60 then none else
  let (sf, r4) ← parseSecFrac r3
  some ((h * 3600 + mi * 60) * 1000000 + sf, r4)

/-- Parse an optional trailing `+HH:MM` / `-HH:MM` UTC offset, returning the
offset in microseconds. -/
def parseOffset (cs : List Char) : Option Int :=
  match cs with
  | [] => some 0
  | sign :: r1 =>
    if sign = '+' || sign = '-' then
      match parse2 r1 with
      | none => none
      | some (oh, r2) =>
        if oh ≥ 24 then none
        else
          match expectChar ':' r2 with
          | none => none
          | some r3 =>
            match parse2 r3 with
            | none => none
            | some (om, r4) =>
              if om ≥ 60 then none
              else if r4 = [] then
                let mag : Int := ((oh * 3600 + om * 60) * 1000000 : Nat)
                some (if sign = '-' then -mag else mag)
              else none
    else none

/-- The model of `datetime.fromisoformat`: `none` exactly on strings outside
the accepted ISO-8601 grammar (Python raises `ValueError` there). -/
def fromisoformat (s : String) : Option Datetime := do
  let (y, r1) ← parse4 s.data
  if y = 0 then none else
  let r2 ← expectChar '-' r1
  let (mo, r3) ← parse2 r2
  if mo = 0 || mo > 12 then none else
  let r4 ← expectChar '-' r3
  let (d, r5) ← parse2 r4
  if d = 0 || d > daysInMonth y mo then none else
  let dayUs : Int := daysFromCivil y mo d * 86400000000
  match r5 with
  | [] => some dayUs
  | sep :: r6 =>
    if sep = 'T' || sep = ' ' then
      match parseTime r6 with
      | none => none
      | some (tUs, r7) =>
        match parseOffset r7 with
        | none => none
        | some offUs => some (dayUs + (tUs : Int) - offUs)
    else none

/-- Python's `s.replace("Z", "+00:00")` (every occurrence of the
one-character needle is replaced). -/
def pyReplaceZ (s : String) : String :=
  String.mk (s.data.flatMap fun c => if c = 'Z' then "+00:00".data else [c])

/-! ## The timestamp normalizer `_parse_timestamp` -/

/-- Does the Python comparison `ts > 1e12` hold for this number?  (`1e12` is
exactly `10^12`; int-float comparisons in Python are exact.) -/
def gtE12 : PyFloat → Bool
  | .finite num den => num > 1000000000000 * (den : Int)
  | .inf => true
  | .neginf => false
  | .nan => false

/-- Python's `ts / 1000` (true division, exact in the model). -/
def div1000 : PyFloat → PyFloat
  | .finite num den => .finite num (den * 1000)
  | .inf => .inf
  | .neginf => .neginf
  | .nan => .nan

/-- The embedding of `models._parse_timestamp`: numbers above `1e12` are
taken as epoch milliseconds and divided by 1000, any other number as epoch
seconds; strings go through `fromisoformat` after `"Z" -> "+00:00"`
replacement (failing with `ValueError` off the grammar).  A `bool` is an
`int` in Python and takes the numeric branch; other types take the string
branch and fail on the missing `.replace` attribute. -/
def _parse_timestamp : PyVal → Except PyErr Datetime
  | .int n => fromtimestampNum (if gtE12 (.finite n 1) then div1000 (.finite n 1) else .finite n 1)
  | .float f => fromtimestampNum (if gtE12 f then div1000 f else f)
  | .bool b => fromtimestampNum (.finite (if b then 1 else 0) 1)
  | .str s =>
    match fromisoformat (pyReplaceZ s) with
    | some us => .ok us
    | none => .error (.valueError "Invalid isoformat string")
  | _ => .error (.typeError "no attribute replace")

/-- Required timestamp field: `_parse_timestamp(data[k])`. -/
def reqTimestamp (d : PyDict) (k : String) : Except PyErr Datetime := do
  _parse_timestamp (← getItem d k)

/-- Guarded optional timestamp:
`_parse_timestamp(data[k]) if data.get(k) else None`. -/
def optTimestamp (d : PyDict) (k : String) : Except PyErr (Option Datetime) :=
  match pyGet d k with
  | none => .ok none
  | some v =>
    if v.truthy then
      match _parse_timestamp v with
      | .ok t => .ok (some t)
      | .error e => .error e
    else .ok none

/-- `datetime.fromisoformat(s.replace("Z", "+00:00"))`, raising `ValueError`
off the grammar (used by `Payment.from_dict` and `_parse_timestamp`). -/
def parseIsoZ (s : String) : Except PyErr Datetime :=
  match fromisoformat (pyReplaceZ s) with
  | some t => .ok t
  | none => .error (.valueError "Invalid isoformat string")

/-! ## Domain model layer (`models.py`) -/

/-- `decimal.Decimal`, modelled as an exact rational (see the header note
on the default context's 28-digit precision). -/
abbrev Decimal := ℚ

/-- The `BountyStatus` enumeration (`bopen` is the wire value `"open"`,
renamed because `open` is a Lean keyword). -/
inductive BountyStatus where
  | bopen
  | claimed
  | submitted
  | completed
  | cancelled
  | payment_failed
deriving DecidableEq, BEq

/-- `BountyStatus(value)`: enum lookup by wire string, `ValueError` when the
string is not a member. -/
def BountyStatus.fromStr : String → Except PyErr BountyStatus
  | "open" => .ok .bopen
  | "claimed" => .ok .claimed
  | "submitted" => .ok .submitted
  | "completed" => .ok .completed
  | "cancelled" => .ok .cancelled
  | "payment_failed" => .ok .payment_failed
  | _ => .error (.valueError "is not a valid BountyStatus")

/-- The wire string of a status. -/
def BountyStatus.value : BountyStatus → String
  | .bopen => "open"
  | .claimed => "claimed"
  | .submitted => "submitted"
  | .completed => "completed"
  | .cancelled => "cancelled"
  | .payment_failed => "payment_failed"

/-- The runtime value of `Bounty.deadline` when present: either a normalized
instant (numeric wire form) or the raw value stored verbatim (string wire
form — or any other truthy non-numeric value, which the source stores
unchecked). -/
inductive DeadlineVal where
  | dt (t : Datetime)
  | raw (v : PyVal)

/-- A bounty submission. -/
structure Submission where
  id : String
  content : String
  submitted_at : Datetime
  proof : Option String := none

/-- A bounty rejection. -/
structure Rejection where
  reason : String
  rejected_at : Datetime
  previous_claimant : Option String := none
  previous_submissions : List Submission := []

/-- A pending payment. -/
structure PendingPayment where
  fee : Int
  chain : String
  token : String
  net_reward : Int
  gross_reward : Int
  recipient : String

/-- A completed payment. -/
structure Payment where
  fee : Int
  chain : String
  token : String
  net_reward : Int
  gross_reward : Int
  tx_hash : String
  processed_at : Datetime
  processed_by : String
  fee_percent : String
  fee_formatted : String
  net_reward_formatted : String

/-- A bounty. -/
structure Bounty where
  id : String
  uuid : String
  title : String
  description : String
  reward : Int
  reward_formatted : String
  status : BountyStatus
  creator : String
  deadline : Option DeadlineVal
  tags : List String
  requirements : List String
  submissions : List Submission
  created_at : Datetime
  updated_at : Datetime
  claimed_by : Option String := none
  claimed_at : Option Datetime := none
  approved_at : Option Datetime := none
  completed_at : Option Datetime := none
  payment_error : Option String := none
  pending_payment : Option PendingPayment := none
  payment : Option Payment := none
  rejections : List Rejection := []

/-- Platform statistics. -/
structure Stats where
  total_bounties : Int
  open_bounties : Int
  completed_bounties : Int
  total_rewards_usdc : PyFloat
  total_agents : Int
  db_connected : Bool

/-- Token configuration for x402. -/
structure TokenConfig where
  network : String
  token : String
  address : String
  min_amount : String

/-- x402 payment configuration. -/
structure X402Config where
  version : String
  network : String
  chain_id : Int
  accepts : List TokenConfig
  facilitator : String
  treasury : String

/-- `PendingPayment.fee_usdc`: `Decimal(self.fee) / Decimal(1_000_000)`. -/
def PendingPayment.fee_usdc (p : PendingPayment) : Decimal :=
  (p.fee : ℚ) / (1000000 : ℚ)

/-- `PendingPayment.net_reward_usdc`. -/
def PendingPayment.net_reward_usdc (p : PendingPayment) : Decimal :=
  (p.net_reward : ℚ) / (1000000 : ℚ)

/-- `PendingPayment.gross_reward_usdc`. -/
def PendingPayment.gross_reward_usdc (p : PendingPayment) : Decimal :=
  (p.gross_reward : ℚ) / (1000000 : ℚ)

/-- `Payment.fee_usdc`. -/
def Payment.fee_usdc (p : Payment) : Decimal :=
  (p.fee : ℚ) / (1000000 : ℚ)

/-- `Payment.net_reward_usdc`. -/
def Payment.net_reward_usdc (p : Payment) : Decimal :=
  (p.net_reward : ℚ) / (1000000 : ℚ)

/-- `Payment.gross_reward_usdc`. -/
def Payment.gross_reward_usdc (p : Payment) : Decimal :=
  (p.gross_reward : ℚ) / (1000000 : ℚ)

/-- `Bounty.reward_usdc`: `Decimal(self.reward) / Decimal(1_000_000)`. -/
def Bounty.reward_usdc (b : Bounty) : Decimal :=
  (b.reward : ℚ) / (1000000 : ℚ)

/-- `Bounty.is_open`. -/
def Bounty.is_open (b : Bounty) : Bool := b.status == .bopen

/-- `Bounty.is_claimed`. -/
def Bounty.is_claimed (b : Bounty) : Bool := b.status == .claimed

/-- `Bounty.is_completed`. -/
def Bounty.is_completed (b : Bounty) : Bool := b.status == .completed

/-- `Bounty.is_payment_failed`. -/
def Bounty.is_payment_failed (b : Bounty) : Bool := b.status == .payment_failed

/-- List-of-strings field with `data.get(k, [])` default. -/
def strListDefault (d : PyDict) (k : String) : Except PyErr (List String) :=
  match pyGet d k with
  | none => .ok []
  | some v => asStrList v

/-- Nested-object list field: `[P.from_dict(x) for x in data.get(k, [])]`. -/
def nestedList (d : PyDict) (k : String) (parser : PyDict → Except PyErr α) :
    Except PyErr (List α) :=
  match pyGet d k with
  | none => .ok []
  | some v => do
    let xs ← asList v
    xs.mapM fun x => do parser (← asDict x)

/-- Guarded optional nested object:
`P.from_dict(data[k]) if data.get(k) else None`. -/
def optNested (d : PyDict) (k : String) (parser : PyDict → Except PyErr α) :
    Except PyErr (Option α) :=
  match pyGet d k with
  | none => .ok none
  | some v =>
    if v.truthy then do
      let kvs ← asDict v
      let x ← parser kvs
      pure (some x)
    else .ok none

/-- Required number field. -/
def reqNum (d : PyDict) (k : String) : Except PyErr PyFloat := do
  asNum (← getItem d k)

/-- Required bool field. -/
def reqBool (d : PyDict) (k : String) : Except PyErr Bool := do
  asBool (← getItem d k)

/-- `Submission.from_dict`. -/
def Submission.from_dict (d : PyDict) : Except PyErr Submission := do
  let id ← reqStr d "id"
  let content ← reqStr d "content"
  let submitted_at ← reqTimestamp d "submittedAt"
  let proof ← optStr d "proof"
  pure { id := id, content := content, submitted_at := submitted_at, proof := proof }

/-- `Rejection.from_dict` (the `previousSubmissions` comprehension is
evaluated before the constructor-argument lookups, as in the source). -/
def Rejection.from_dict (d : PyDict) : Except PyErr Rejection := do
  let previous_submissions ← nestedList d "previousSubmissions" Submission.from_dict
  let reason ← reqStr d "reason"
  let rejected_at ← reqTimestamp d "rejectedAt"
  let previous_claimant ← optStr d "previousClaimant"
  pure { reason := reason, rejected_at := rejected_at,
         previous_claimant := previous_claimant,
         previous_submissions := previous_submissions }

/-- `PendingPayment.from_dict`. -/
def PendingPayment.from_dict (d : PyDict) : Except PyErr PendingPayment := do
  let fee ← reqInt d "fee"
  let chain ← reqStr d "chain"
  let token ← reqStr d "token"
  let net_reward ← reqInt d "netReward"
  let gross_reward ← reqInt d "grossReward"
  let recipient ← reqStr d "recipient"
  pure { fee := fee, chain := chain, token := token, net_reward := net_reward,
         gross_reward := gross_reward, recipient := recipient }

/-- `Payment.from_dict`. -/
def Payment.from_dict (d : PyDict) : Except PyErr Payment := do
  let fee ← reqInt d "fee"
  let chain ← reqStr d "chain"
  let token ← reqStr d "token"
  let net_reward ← reqInt d "netReward"
  let gross_reward ← reqInt d "grossReward"
  let tx_hash ← reqStr d "txHash"
  let processedRaw ← reqStr d "processedAt"
  let processed_at ← parseIsoZ processedRaw
  let processed_by ← reqStr d "processedBy"
  let fee_percent ← reqStr d "feePercent"
  let fee_formatted ← reqStr d "feeFormatted"
  let net_reward_formatted ← reqStr d "netRewardFormatted"
  pure { fee := fee, chain := chain, token := token, net_reward := net_reward,
         gross_reward := gross_reward, tx_hash := tx_hash,
         processed_at := processed_at, processed_by := processed_by,
         fee_percent := fee_percent, fee_formatted := fee_formatted,
         net_reward_formatted := net_reward_formatted }

/-- The deadline branch of `Bounty.from_dict` (lines 207-214): a truthy
numeric value is always divided by 1000 and converted with
`datetime.fromtimestamp` (no magnitude heuristic); any other truthy value
is stored verbatim; a falsy value (absent, `null`, `0`, `""`, ...) yields
`None`.  A `bool` passes Python's `isinstance(x, (int, float))`. -/
def parseDeadlineField (d : PyDict) : Except PyErr (Option DeadlineVal) :=
  match pyGet d "deadline" with
  | none => .ok none
  | some v =>
    if v.truthy then
      match v with
      | .int n => (fromtimestampNum (div1000 (.finite n 1))).map fun t => some (.dt t)
      | .float f => (fromtimestampNum (div1000 f)).map fun t => some (.dt t)
      | .bool b =>
        (fromtimestampNum (div1000 (.finite (if b then 1 else 0) 1))).map fun t => some (.dt t)
      | w => .ok (some (.raw w))
    else .ok none

/-- `Bounty.from_dict` (the deadline branch is evaluated first, then the
constructor arguments in source order). -/
def Bounty.from_dict (d : PyDict) : Except PyErr Bounty := do
  let deadline ← parseDeadlineField d
  let id ← reqStr d "id"
  let uuid ← reqStr d "uuid"
  let title ← reqStr d "title"
  let description ← reqStr d "description"
  let reward ← reqInt d "reward"
  let reward_formatted ← reqStr d "rewardFormatted"
  let statusStr ← reqStr d "status"
  let status ← BountyStatus.fromStr statusStr
  let creator ← reqStr d "creator"
  let tags ← strListDefault d "tags"
  let requirements ← strListDefault d "requirements"
  let submissions ← nestedList d "submissions" Submission.from_dict
  let created_at ← reqTimestamp d "createdAt"
  let updated_at ← reqTimestamp d "updatedAt"
  let claimed_by ← optStr d "claimedBy"
  let claimed_at ← optTimestamp d "claimedAt"
  let approved_at ← optTimestamp d "approvedAt"
  let completed_at ← optTimestamp d "completedAt"
  let payment_error ← optStr d "paymentError"
  let pending_payment ← optNested d "pendingPayment" PendingPayment.from_dict
  let payment ← optNested d "payment" Payment.from_dict
  let rejections ← nestedList d "rejections" Rejection.from_dict
  pure { id := id, uuid := uuid, title := title, description := description,
         reward := reward, reward_formatted := reward_formatted,
         status := status, creator := creator, deadline := deadline,
         tags := tags, requirements := requirements,
         submissions := submissions, created_at := created_at,
         updated_at := updated_at, claimed_by := claimed_by,
         claimed_at := claimed_at, approved_at := approved_at,
         completed_at := completed_at, payment_error := payment_error,
         pending_payment := pending_payment, payment := payment,
         rejections := rejections }

/-- `Stats.from_dict`. -/
def Stats.from_dict (d : PyDict) : Except PyErr Stats := do
  let total_bounties ← reqInt d "totalBounties"
  let open_bounties ← reqInt d "openBounties"
  let completed_bounties ← reqInt d "completedBounties"
  let total_rewards_usdc ← reqNum d "totalRewardsUSDC"
  let total_agents ← reqInt d "totalAgents"
  let db_connected ← reqBool d "dbConnected"
  pure { total_bounties := total_bounties, open_bounties := open_bounties,
         completed_bounties := completed_bounties,
         total_rewards_usdc := total_rewards_usdc,
         total_agents := total_agents, db_connected := db_connected }

/-- `TokenConfig.from_dict`. -/
def TokenConfig.from_dict (d : PyDict) : Except PyErr TokenConfig := do
  let network ← reqStr d "network"
  let token ← reqStr d "token"
  let address ← reqStr d "address"
  let min_amount ← reqStr d "minAmount"
  pure { network := network, token := token, address := address,
         min_amount := min_amount }

/-- `X402Config.from_dict` (`accepts` is a required key: `data["accepts"]`). -/
def X402Config.from_dict (d : PyDict) : Except PyErr X402Config := do
  let version ← reqStr d "version"
  let network ← reqStr d "network"
  let chain_id ← reqInt d "chainId"
  let acceptsRaw ← getItem d "accepts"
  let acceptsVals ← asList acceptsRaw
  let accepts ← acceptsVals.mapM fun x => do TokenConfig.from_dict (← asDict x)
  let facilitator ← reqStr d "facilitator"
  let treasury ← reqStr d "treasury"
  pure { version := version, network := network, chain_id := chain_id,
         accepts := accepts, facilitator := facilitator, treasury := treasury }

/-! ## Filter and query builder (`filters.py`) -/

/-- ASCII `str.lower` on one character (every string compared by the
claims is ASCII; CPython's full Unicode case map is out of model). -/
def lowerChar (c : Char) : Char :=
  let n := c.toNat
  if 65 ≤ n ∧ n ≤ 90 then Char.ofNat (n + 32) else c

/-- `s.lower()`. -/
def pyLower (s : String) : String := String.mk (s.data.map lowerChar)

/-- Python's substring test `needle in haystack`. -/
def pyInStr (needle haystack : String) : Bool :=
  (List.range (haystack.data.length + 1)).any fun i =>
    needle.data.isPrefixOf (haystack.data.drop i)

/-- Truthiness of an `Optional[str]` (`None` and `""` are falsy). -/
def strOptTruthy : Option String → Bool
  | some s => s != ""
  | none => false

/-- The `BountyFilter` builder state (`custom_filter` is modelled as a pure
predicate). -/
structure BountyFilter where
  statuses : List BountyStatus := []
  tags : List String := []
  min_reward : Option Decimal := none
  max_reward : Option Decimal := none
  creator : Option String := none
  claimed_by : Option String := none
  search_query : Option String := none
  custom_filter : Option (Bounty → Bool) := none

/-- `BountyFilter()` with no criteria set. -/
def BountyFilter.empty : BountyFilter := {}

/-- `with_status(*statuses)`: extends the status list (the builder mutates
and returns `self`; modelled functionally). -/
def BountyFilter.with_status (f : BountyFilter) (statuses : List BountyStatus) : BountyFilter :=
  { f with statuses := f.statuses ++ statuses }

/-- `with_tags(*tags)`: extends the AND-semantics tag list. -/
def BountyFilter.with_tags (f : BountyFilter) (tags : List String) : BountyFilter :=
  { f with tags := f.tags ++ tags }

/-- `with_any_tags(*tags)`: installs an OR-semantics custom filter,
overwriting any previously set custom filter. -/
def BountyFilter.with_any_tags (f : BountyFilter) (tags : List String) : BountyFilter :=
  let tagSet := tags.map pyLower
  { f with custom_filter := some fun b => (b.tags.map pyLower).any fun t => tagSet.contains t }

/-- `with_min_reward(amount)`. -/
def BountyFilter.with_min_reward (f : BountyFilter) (amount : Decimal) : BountyFilter :=
  { f with min_reward := some amount }

/-- `with_max_reward(amount)`. -/
def BountyFilter.with_max_reward (f : BountyFilter) (amount : Decimal) : BountyFilter :=
  { f with max_reward := some amount }

/-- `with_creator(creator)` (stores the lowercased address). -/
def BountyFilter.with_creator (f : BountyFilter) (creator : String) : BountyFilter :=
  { f with creator := some (pyLower creator) }

/-- `with_claimed_by(claimant)` (stores the lowercased address). -/
def BountyFilter.with_claimed_by (f : BountyFilter) (claimant : String) : BountyFilter :=
  { f with claimed_by := some (pyLower claimant) }

/-- `search(query)` (stores the lowercased query). -/
def BountyFilter.search (f : BountyFilter) (query : String) : BountyFilter :=
  { f with search_query := some (pyLower query) }

/-- One stage of `BountyFilter.apply`: `if <guard>: result = [b for b in
result if <pred>]`. -/
def filterStage (guard : Bool) (p : Bounty → Bool) (l : List Bounty) : List Bounty :=
  if guard then l.filter p else l

/-- `BountyFilter.apply`: the eight stages in source order (status, tags
with AND semantics, min reward, max reward, creator, claimed-by, search
text, custom predicate).  Each stage's predicate is written totally via
`Option.all`, which agrees with the source's partial access since the
stage only runs when its criterion is set and truthy. -/
def BountyFilter.apply (f : BountyFilter) (bounties : List Bounty) : List Bounty :=
  let r := bounties
  let r := filterStage (!f.statuses.isEmpty)
    (fun b => f.statuses.contains b.status) r
  let r := filterStage (!f.tags.isEmpty)
    (fun b => f.tags.all fun t => (b.tags.map pyLower).contains (pyLower t)) r
  let r := filterStage f.min_reward.isSome
    (fun b => f.min_reward.all fun m => decide (m ≤ b.reward_usdc)) r
  let r := filterStage f.max_reward.isSome
    (fun b => f.max_reward.all fun m => decide (b.reward_usdc ≤ m)) r
  let r := filterStage (strOptTruthy f.creator)
    (fun b => f.creator.all fun c => pyLower b.creator == c) r
  let r := filterStage (strOptTruthy f.claimed_by)
    (fun b => strOptTruthy b.claimed_by &&
      (f.claimed_by.all fun c => b.claimed_by.all fun s => pyLower s == c)) r
  let r := filterStage (strOptTruthy f.search_query)
    (fun b => f.search_query.all fun q =>
      pyInStr q (pyLower b.title) || pyInStr q (pyLower b.description)) r
  let r := filterStage f.custom_filter.isSome
    (fun b => f.custom_filter.all fun p => p b) r
  r

/-- Stable insertion keeping `y` before `x` whenever `bef y x` (the
insertion point of a later element is after every earlier element that
sorts before-or-equal, which is exactly Python's stable `sorted`). -/
def insertStable (bef : α → α → Bool) (x : α) : List α → List α
  | [] => [x]
  | y :: ys => if bef y x then y :: insertStable bef x ys else x :: y :: ys

/-- Stable sort by repeated insertion in original order. -/
def sortStable (bef : α → α → Bool) (l : List α) : List α :=
  l.foldl (fun acc b => insertStable bef b acc) []

/-- Python's `sorted(l, key=key, reverse=reverse)` for an integer key:
stable, ascending unless `reverse`. -/
def pySortedByKey (key : α → Int) (reverse : Bool) (l : List α) : List α :=
  sortStable (fun y x => if reverse then key x ≤ key y else key y ≤ key x) l

/-- `sort_by_reward(bounties, descending=True)`. -/
def sort_by_reward (bounties : List Bounty) (descending : Bool := true) : List Bounty :=
  pySortedByKey (fun b => b.reward) descending bounties

/-- `sort_by_created(bounties, descending=True)`. -/
def sort_by_created (bounties : List Bounty) (descending : Bool := true) : List Bounty :=
  pySortedByKey (fun b => b.created_at) descending bounties

/-- The `deadline_key` closure of `sort_by_deadline`: `None` maps to
`datetime.max` when descending and `datetime.min` when ascending, a string
deadline to `datetime.min`, a datetime to itself.  A deadline that is
neither (a raw non-string value) has no comparable key — Python would
raise `TypeError` when `sorted` compares it. -/
def deadline_key (descending : Bool) (b : Bounty) : Option Datetime :=
  match b.deadline with
  | none => some (if descending then datetimeMax else datetimeMin)
  | some (.dt t) => some t
  | some (.raw (.str _)) => some datetimeMin
  | some (.raw _) => none

/-- `sort_by_deadline(bounties, descending=False)`.  Python raises
`TypeError` lazily, at the first comparison touching an incomparable key;
the model raises eagerly whenever any key is incomparable (no claim
distinguishes the two). -/
def sort_by_deadline (bounties : List Bounty) (descending : Bool := false) :
    Except PyErr (List Bounty) :=
  if bounties.all fun b => (deadline_key descending b).isSome then
    .ok (pySortedByKey (fun b => (deadline_key descending b).getD 0) descending bounties)
  else .error (.typeError "not supported between instances")

/-! ## Request client (`client.py`)

The HTTP transport (httpx) is external; an exchange's outcome is data: a
timeout, a transport error, or a response carrying status, headers, body
text and the JSON parse of that text. -/

/-- An HTTP response as seen by `_request` (the `json` field is the parse
of `text`: `none` when `text` is not valid JSON). -/
structure HttpResponse where
  status : Nat
  headers : List (String × String)
  text : String
  json : Option PyVal

/-- The outcome of attempting an HTTP exchange. -/
inductive HttpOutcome where
  | timeout
  | requestError
  | response (r : HttpResponse)

/-- The typed failures `_request` and the operations raise, mirroring
`exceptions.py` (payload strings that no claim touches are omitted;
`raised` carries a Python exception that escapes uncaught, e.g. the
`JSONDecodeError` from `response.json()` inside the 400 branch). -/
inductive ClientErr where
  | notFound (path : String)
  | validation (text : String) (body : Option PyVal)
  | authentication
  | rateLimit (retry_after : Option Int)
  | serverError (status_code : Nat)
  | apiError (status_code : Nat) (body : Option PyVal)
  | notImplementedError (msg : String)
  | raised (e : PyErr)

/-- The `status_code` attribute of the `APIError` hierarchy (`none` for
failures outside that hierarchy). -/
def ClientErr.statusCode : ClientErr → Option Nat
  | .notFound _ => some 404
  | .validation _ _ => some 400
  | .authentication => some 401
  | .rateLimit _ => some 429
  | .serverError s => some s
  | .apiError s _ => some s
  | .notImplementedError _ => none
  | .raised _ => none

/-- httpx's case-insensitive `response.headers.get(k)`. -/
def headerGet (headers : List (String × String)) (k : String) : Option String :=
  (headers.find? fun kv => pyLower kv.fst == pyLower k).map Prod.snd

/-- Digits-only value of a character list (`none` when empty or off-digit). -/
def digitsVal (cs : List Char) : Option Nat :=
  cs.foldl
    (fun acc c =>
      match acc, digitOf c with
      | some n, some d => some (10 * n + d)
      | _, _ => none)
    (if cs.isEmpty then none else some 0)

/-- Python's `int(s)` on a decimal string (optional sign), `none` when the
call would raise `ValueError`. -/
def pyIntOfStr (s : String) : Option Int :=
  match s.data with
  | '-' :: rest => (digitsVal rest).map fun n => -(n : Int)
  | '+' :: rest => (digitsVal rest).map fun n => (n : Int)
  | cs => (digitsVal cs).map fun n => (n : Int)

/-- httpx's `response.is_success` (status in 200..299). -/
def is_success (status : Nat) : Bool := 200 ≤ status && status < 300

/-- `response.json() if response.text else None`, where a decode failure
raises `json.JSONDecodeError` (a `ValueError`). -/
def bodyIfText (r : HttpResponse) : Except PyErr (Option PyVal) :=
  if r.text == "" then .ok none
  else
    match r.json with
    | some j => .ok (some j)
    | none => .error (.valueError "JSONDecodeError")

/-- The embedding of `BountyBoardClient._request` (the async client's
`_request` is byte-identical): transport failures become `APIError` with
status code 0; then 404, 400, 401, 429, ≥500 and other non-success
statuses dispatch in source order, strictly before body parsing; a 204 or
empty body yields `{}`; a JSON decode failure on a success body is wrapped
as `APIError` with the response's status code. -/
def _request (path : String) (outcome : HttpOutcome) : Except ClientErr PyVal :=
  match outcome with
  | .timeout => .error (.apiError 0 none)
  | .requestError => .error (.apiError 0 none)
  | .response r =>
    if r.status == 404 then .error (.notFound path)
    else if r.status == 400 then
      match bodyIfText r with
      | .ok b => .error (.validation r.text b)
      | .error e => .error (.raised e)
    else if r.status == 401 then .error .authentication
    else if r.status == 429 then
      match headerGet r.headers "Retry-After" with
      | none => .error (.rateLimit none)
      | some h =>
        if h == "" then .error (.rateLimit none)
        else
          match pyIntOfStr h with
          | some n => .error (.rateLimit (some n))
          | none => .error (.raised (.valueError "invalid literal for int"))
    else if r.status ≥ 500 then .error (.serverError r.status)
    else if !is_success r.status then
      match bodyIfText r with
      | .ok b => .error (.apiError r.status b)
      | .error e => .error (.raised e)
    else if r.status == 204 || r.text == "" then .ok (.dict [])
    else
      match r.json with
      | some j => .ok j
      | none => .error (.apiError r.status none)

/-- A request the client hands to the transport (for the effect traces of
the operations). -/
structure HttpRequestSpec where
  method : String
  path : String
  body : Option PyVal

/-- Feed a `_request` result into a domain-model parser; a `PyErr` raised
by the parser escapes uncaught. -/
def runParse (parse : PyDict → Except PyErr α) (res : Except ClientErr PyVal) :
    Except ClientErr α :=
  match res with
  | .error e => .error e
  | .ok j =>
    match (do parse (← asDict j) : Except PyErr α) with
    | .ok x => .ok x
    | .error e => .error (.raised e)

/-- `claim_bounty(bounty_id, wallet_address)`: issues one POST and parses
the body as a Bounty (shown for contrast with `create_bounty`, which
issues nothing). -/
def claim_bounty (bounty_id wallet_address : String) (outcome : HttpOutcome) :
    List HttpRequestSpec × Except ClientErr Bounty :=
  let path := "/bounties/" ++ bounty_id ++ "/claim"
  ([{ method := "POST", path := path,
      body := some (.dict [("walletAddress", .str wallet_address)]) }],
   runParse Bounty.from_dict (_request path outcome))

/-- The arguments of `create_bounty`. -/
structure CreateBountyArgs where
  title : String
  description : String
  reward_usdc : Decimal
  requirements : List String
  tags : Option (List String) := none
  deadline : Option String := none

/-- The embedding of `BountyBoardClient.create_bounty`: the body is a bare
`raise NotImplementedError(...)`, so the call issues no HTTP request
(empty trace) and fails identically for every argument. -/
def create_bounty (_args : CreateBountyArgs) :
    List HttpRequestSpec × Except ClientErr Bounty :=
  ([], .error (.notImplementedError
    "x402 payment implementation required. Use the x402 library to sign payments and include X-Payment header."))

/-! ## Unit conversion utilities (`utils.py`) -/

/-- Python's `int(d)` on a Decimal: truncation toward zero. -/
def pyIntOfDecimal (q : Decimal) : Int := q.num.tdiv (q.den : Int)

/-- `usdc_to_micro(usdc)`: `int(usdc * Decimal(1_000_000))`. -/
def usdc_to_micro (usdc : Decimal) : Int := pyIntOfDecimal (usdc * (1000000 : ℚ))

/-- `micro_to_usdc(micro)`: `Decimal(micro) / Decimal(1_000_000)`. -/
def micro_to_usdc (micro : Int) : Decimal := (micro : ℚ) / (1000000 : ℚ)

/-! ## Helper lemmas and sample values -/

/-- Whether an `Except` is a raised exception. -/
def isError : Except PyErr α → Bool
  | .error _ => true
  | .ok _ => false

/-- Whether an `Except` raised specifically the spec's `MissingFieldError`. -/
def failsWithMissingField : Except PyErr α → Bool
  | .error (.missingFieldError _) => true
  | _ => false

/-- A minimal bounty for concrete evaluations. -/
def mkBounty (bid : String) (deadline : Option DeadlineVal) : Bounty :=
  { id := bid, uuid := "", title := "", description := "", reward := 0,
    reward_formatted := "", status := BountyStatus.bopen, creator := "",
    deadline := deadline, tags := [], requirements := [], submissions := [],
    created_at := 0, updated_at := 0 }

/-- A bounty without a deadline. -/
def bountyNoDeadline : Bounty := mkBounty "A" none

/-- A bounty with a parsed (datetime) deadline in 2026. -/
def bountyDtDeadline : Bounty := mkBounty "B" (some (.dt 1770449294859000))

/-- A bounty whose deadline is a bare-date string stored verbatim. -/
def bountyStrDeadline : Bounty := mkBounty "C" (some (.raw (.str "2026-02-20")))

/-- The keys `Submission.from_dict` reads with `data[k]`. -/
def submissionRequired : List String := ["id", "content", "submittedAt"]

/-- The keys `Rejection.from_dict` reads with `data[k]`. -/
def rejectionRequired : List String := ["reason", "rejectedAt"]

/-- The keys `PendingPayment.from_dict` reads with `data[k]`. -/
def pendingPaymentRequired : List String :=
  ["fee", "chain", "token", "netReward", "grossReward", "recipient"]

/-- The keys `Payment.from_dict` reads with `data[k]`. -/
def paymentRequired : List String :=
  ["fee", "chain", "token", "netReward", "grossReward", "txHash",
   "processedAt", "processedBy", "feePercent", "feeFormatted", "netRewardFormatted"]

/-- The keys `Bounty.from_dict` reads with `data[k]`. -/
def bountyRequired : List String :=
  ["id", "uuid", "title", "description", "reward", "rewardFormatted",
   "status", "creator", "createdAt", "updatedAt"]

/-- The keys `Stats.from_dict` reads with `data[k]`. -/
def statsRequired : List String :=
  ["totalBounties", "openBounties", "completedBounties", "totalRewardsUSDC",
   "totalAgents", "dbConnected"]

/-- The keys `TokenConfig.from_dict` reads with `data[k]`. -/
def tokenConfigRequired : List String := ["network", "token", "address", "minAmount"]

/-- The keys `X402Config.from_dict` reads with `data[k]`. -/
def x402ConfigRequired : List String :=
  ["version", "network", "chainId", "accepts", "facilitator", "treasury"]

lemma isError_bind (x : Except PyErr α) (f : α → Except PyErr β)
    (h : ∀ a, x = .ok a → isError (f a) = true) : isError (x >>= f) = true := by
  cases x with
  | error e => rfl
  | ok a => exact h a rfl

lemma getItem_of_lookup_none (d : PyDict) (k : String) (h : d.lookup k = none) :
    getItem d k = .error (.keyError k) := by
  simp [getItem, h]

lemma roundHalfEvenDiv_mul (a b : Int) (hb : 0 < b) :
    roundHalfEvenDiv (a * b) b = a := by
  have h1 : (a * b).ediv b = a := Int.mul_ediv_cancel a (ne_of_gt hb)
  have h2 : (a * b).emod b = 0 := Int.mul_emod_left a b
  unfold roundHalfEvenDiv
  simp only [h1, h2]
  norm_num [hb]

lemma fromtimestampFrac_ok (num : Int) (den : Nat) (h : tsInRange num den = true) :
    fromtimestampFrac num den = .ok (roundHalfEvenDiv (num * 1000000) den) := by
  simp [fromtimestampFrac, h]

lemma filterStage_eq_filter (guard : Bool) (p : Bounty → Bool) (l : List Bounty) :
    filterStage guard p l = l.filter fun b => !guard || p b := by
  cases guard <;> simp [filterStage]

lemma filterStage_filter (guard : Bool) (q p : Bounty → Bool) (l : List Bounty) :
    filterStage guard q (l.filter p) = l.filter fun b => (!guard || q b) && p b := by
  rw [filterStage_eq_filter, List.filter_filter]

lemma comp_step {G : List Bounty → List Bounty}
    (hG : ∃ p, ∀ l, G l = l.filter p) (guard : Bool) (q : Bounty → Bool) :
    ∃ p, ∀ l, filterStage guard q (G l) = l.filter p := by
  obtain ⟨p, hp⟩ := hG
  exact ⟨fun b => (!guard || q b) && p b, fun l => by rw [hp, filterStage_filter]⟩

lemma apply_filter_pred (f : BountyFilter) :
    ∃ p, ∀ l, f.apply l = l.filter p := by
  have h0 : ∃ p, ∀ l : List Bounty, id l = l.filter p :=
    ⟨fun _ => true, fun l => (List.filter_true l).symm⟩
  have h1 := comp_step h0 (!f.statuses.isEmpty)
    (fun b => f.statuses.contains b.status)
  have h2 := comp_step h1 (!f.tags.isEmpty)
    (fun b => f.tags.all fun t => (b.tags.map pyLower).contains (pyLower t))
  have h3 := comp_step h2 f.min_reward.isSome
    (fun b => f.min_reward.all fun m => decide (m ≤ b.reward_usdc))
  have h4 := comp_step h3 f.max_reward.isSome
    (fun b => f.max_reward.all fun m => decide (b.reward_usdc ≤ m))
  have h5 := comp_step h4 (strOptTruthy f.creator)
    (fun b => f.creator.all fun c => pyLower b.creator == c)
  have h6 := comp_step h5 (strOptTruthy f.claimed_by)
    (fun b => strOptTruthy b.claimed_by &&
      (f.claimed_by.all fun c => b.claimed_by.all fun s => pyLower s == c))
  have h7 := comp_step h6 (strOptTruthy f.search_query)
    (fun b => f.search_query.all fun q =>
      pyInStr q (pyLower b.title) || pyInStr q (pyLower b.description))
  have h8 := comp_step h7 f.custom_filter.isSome
    (fun b => f.custom_filter.all fun p => p b)
  obtain ⟨p, hp⟩ := h8
  exact ⟨p, fun l => hp l⟩

/-! ## The claims -/

/-- C10: for every integer `m`, `usdc_to_micro(micro_to_usdc(m)) = m` — the
micro-USDC to Decimal conversion round-trips exactly through its inverse. -/
theorem claim10_round_trip : ∀ m : Int, usdc_to_micro (micro_to_usdc m) = m := by
  intro m
  unfold usdc_to_micro micro_to_usdc pyIntOfDecimal
  rw [div_mul_cancel₀ (m : ℚ) (by norm_num)]
  simp [Rat.intCast_num, Rat.intCast_den, Int.tdiv_one]

/-- C5: the `*_usdc` accessors of `Bounty`, `Payment` and `PendingPayment`
are the exact rational value of the integer micro-currency field divided by
1,000,000 (Decimal, not binary-float, arithmetic); in particular a reward
of 20000000 micro-USDC is exactly 20 USDC. -/
theorem claim5_usdc_exact :
    (∀ b : Bounty, b.reward_usdc = (b.reward : ℚ) / 1000000)
    ∧ (∀ p : Payment, p.fee_usdc = (p.fee : ℚ) / 1000000
        ∧ p.net_reward_usdc = (p.net_reward : ℚ) / 1000000
        ∧ p.gross_reward_usdc = (p.gross_reward : ℚ) / 1000000)
    ∧ (∀ p : PendingPayment, p.fee_usdc = (p.fee : ℚ) / 1000000
        ∧ p.net_reward_usdc = (p.net_reward : ℚ) / 1000000
        ∧ p.gross_reward_usdc = (p.gross_reward : ℚ) / 1000000)
    ∧ ({ mkBounty "143" none with reward := 20000000 }).reward_usdc = 20 := by
  refine ⟨fun _ => rfl, fun _ => ⟨rfl, rfl, rfl⟩, fun _ => ⟨rfl, rfl, rfl⟩, ?_⟩
  norm_num [Bounty.reward_usdc]

/-- C7: applying a `BountyFilter` twice gives the same result as applying
it once, and a filter with no criteria set returns the input unchanged and
in original order. -/
theorem claim7_filter_idempotent :
    (∀ (f : BountyFilter) (bs : List Bounty), f.apply (f.apply bs) = f.apply bs)
    ∧ (∀ bs : List Bounty, BountyFilter.empty.apply bs = bs) := by
  constructor
  · intro f bs
    obtain ⟨p, hp⟩ := apply_filter_pred f
    rw [hp, hp, List.filter_filter]
    simp [Bool.and_self]
  · intro bs
    rfl

/-- C8: `create_bounty` issues no HTTP request (its effect trace is empty),
fails identically for every argument with the payment-signing
`NotImplementedError`, and that failure is not an `APIError` (the generic
transport-error kind) — no `status_code` attribute exists on it. -/
theorem claim8_create_bounty :
    ∀ args : CreateBountyArgs,
      (create_bounty args).1 = []
      ∧ (create_bounty args).2 = .error (.notImplementedError
          "x402 payment implementation required. Use the x402 library to sign payments and include X-Payment header.")
      ∧ (∀ args2, create_bounty args = create_bounty args2)
      ∧ (∀ s b, (create_bounty args).2 ≠ .error (.apiError s b))
      ∧ (∀ e, (create_bounty args).2 = .error e → e.statusCode = none) := by
  intro args
  refine ⟨rfl, rfl, fun _ => rfl, fun s b h => by simp [create_bounty] at h, ?_⟩
  intro e he
  simp only [create_bounty] at he
  cases he
  rfl

/-- C2 (code bug): evaluating `sort_by_deadline` at a two-bounty input.
The function's own comment says missing deadlines are "at the end", and
the claim says a deadline-less bounty sorts last when ascending; but the
code maps a missing deadline to `datetime.min` when ascending, so the
deadline-less bounty comes FIRST in both directions.  (The string-deadline
part of the claim does hold: a verbatim string deadline keys as
`datetime.min`, the earliest possible instant, and sorts first against a
real deadline ascending.) -/
theorem claim2_sort_by_deadline_eval :
    sort_by_deadline [bountyDtDeadline, bountyNoDeadline] false
      = .ok [bountyNoDeadline, bountyDtDeadline]
    ∧ sort_by_deadline [bountyDtDeadline, bountyNoDeadline] true
      = .ok [bountyNoDeadline, bountyDtDeadline]
    ∧ sort_by_deadline [bountyDtDeadline, bountyStrDeadline] false
      = .ok [bountyStrDeadline, bountyDtDeadline] := by
  refine ⟨rfl, rfl, rfl⟩

/-- C6: the request client's error mapping: 404 raises `NotFoundError`
(carrying the path); 429 with header `Retry-After: 5` raises
`RateLimitError` with `retry_after = 5`; 500 raises `ServerError` with
`status_code = 500`; and a timeout raises the generic `APIError` with
`status_code = 0`. -/
theorem claim6_error_mapping :
    (∀ path hdrs txt bj,
      _request path (.response ⟨404, hdrs, txt, bj⟩) = .error (.notFound path))
    ∧ (∀ path hdrs txt bj, headerGet hdrs "Retry-After" = some "5" →
      _request path (.response ⟨429, hdrs, txt, bj⟩) = .error (.rateLimit (some 5)))
    ∧ (∀ path hdrs txt bj,
      _request path (.response ⟨500, hdrs, txt, bj⟩) = .error (.serverError 500))
    ∧ (∀ path, _request path .timeout = .error (.apiError 0 none)) := by
  refine ⟨fun path hdrs txt bj => rfl, ?_, fun path hdrs txt bj => rfl, fun path => rfl⟩
  intro path hdrs txt bj hH
  simp only [_request]
  rw [hH]
  rfl

/-- C6 witness: the mapping evaluated at concrete exchanges. -/
theorem claim6_witness :
    _request "/bounties/9999" (.response ⟨404, [], "", none⟩)
      = .error (.notFound "/bounties/9999")
    ∧ _request "/bounties" (.response ⟨429, [("Retry-After", "5")], "", none⟩)
      = .error (.rateLimit (some 5))
    ∧ _request "/stats" (.response ⟨500, [], "", none⟩) = .error (.serverError 500)
    ∧ _request "/bounties" .timeout = .error (.apiError 0 none) :=
  ⟨claim6_error_mapping.1 "/bounties/9999" [] "" none,
   claim6_error_mapping.2.1 "/bounties" [("Retry-After", "5")] "" none rfl,
   claim6_error_mapping.2.2.1 "/stats" [] "" none,
   claim6_error_mapping.2.2.2 "/bounties"⟩

lemma flatMap_noZ (cs : List Char) (h : cs.contains 'Z' = false) :
    (cs.flatMap fun c => if c = 'Z' then "+00:00".data else [c]) = cs := by
  induction cs with
  | nil => rfl
  | cons c rest ih =>
    simp only [List.contains_cons, Bool.or_eq_false_iff] at h
    have hc : ¬c = 'Z' := by
      intro hz
      simp [hz] at h
    simp [List.flatMap_cons, hc, ih h.2]

lemma pyReplaceZ_trailing (cs : List Char) (h : cs.contains 'Z' = false) :
    pyReplaceZ (String.mk cs ++ "Z") = String.mk cs ++ "+00:00" := by
  unfold pyReplaceZ
  show String.mk ((cs ++ ['Z']).flatMap fun c => if c = 'Z' then "+00:00".data else [c]) = _
  rw [List.flatMap_append, flatMap_noZ cs h]
  rfl

lemma gtE12_int_true (n : Int) (h : n > 1000000000000) :
    gtE12 (.finite n 1) = true := by
  simp only [gtE12, Nat.cast_one, mul_one, decide_eq_true_eq]
  exact h

lemma gtE12_int_false (n : Int) (h : ¬n > 1000000000000) :
    gtE12 (.finite n 1) = false := by
  simp only [gtE12, Nat.cast_one, mul_one, decide_eq_false_iff_not]
  exact h

lemma fromtimestamp_seconds (n : Int) (h : tsInRange n 1 = true) :
    fromtimestampFrac n 1 = .ok (n * 1000000) := by
  rw [fromtimestampFrac_ok n 1 h]
  simp only [Nat.cast_one]
  congr 1
  conv_lhs => rw [show n * 1000000 = n * 1000000 * 1 by ring]
  exact roundHalfEvenDiv_mul (n * 1000000) 1 (by norm_num)

lemma fromtimestamp_millis (n : Int) (h : tsInRange n 1000 = true) :
    fromtimestampFrac n 1000 = .ok (n * 1000) := by
  rw [fromtimestampFrac_ok n 1000 h]
  simp only [Nat.cast_ofNat]
  congr 1
  conv_lhs => rw [show n * 1000000 = n * 1000 * 1000 by ring]
  exact roundHalfEvenDiv_mul (n * 1000) 1000 (by norm_num)

/-- C4: the timestamp normalizer's valid-input behavior: a number strictly
greater than `1e12` is interpreted as epoch milliseconds and divided by
1000 before conversion (for an integer `n`, yielding the instant `n * 1000`
microseconds); any other number is interpreted as epoch seconds (yielding
`n * 1000000` microseconds); a string is parsed as ISO-8601 after replacing
`"Z"` with `"+00:00"`, so a trailing `Z` is treated as UTC offset
`+00:00`. -/
theorem claim4_parse_timestamp :
    (∀ n : Int, n > 1000000000000 → tsInRange n 1000 = true →
      _parse_timestamp (.int n) = .ok (n * 1000))
    ∧ (∀ n : Int, ¬n > 1000000000000 → tsInRange n 1 = true →
      _parse_timestamp (.int n) = .ok (n * 1000000))
    ∧ (∀ (num : Int) (den : Nat), gtE12 (.finite num den) = true →
      tsInRange num (den * 1000) = true →
      _parse_timestamp (.float (.finite num den))
        = .ok (roundHalfEvenDiv (num * 1000000) (den * 1000)))
    ∧ (∀ (num : Int) (den : Nat), gtE12 (.finite num den) = false →
      tsInRange num den = true →
      _parse_timestamp (.float (.finite num den))
        = .ok (roundHalfEvenDiv (num * 1000000) den))
    ∧ (∀ s, _parse_timestamp (.str s) = parseIsoZ s)
    ∧ (∀ t : String, t.data.contains 'Z' = false →
      _parse_timestamp (.str (t ++ "Z")) =
        match fromisoformat (t ++ "+00:00") with
        | some u => .ok u
        | none => .error (.valueError "Invalid isoformat string")) := by
  refine ⟨?_, ?_, ?_, ?_, fun s => rfl, ?_⟩
  · intro n h hr
    simp only [_parse_timestamp, gtE12_int_true n h, if_true, div1000, fromtimestampNum,
      Nat.one_mul]
    exact fromtimestamp_millis n hr
  · intro n h hr
    simp only [_parse_timestamp, gtE12_int_false n h, Bool.false_eq_true, if_false,
      fromtimestampNum]
    exact fromtimestamp_seconds n hr
  · intro num den hg hr
    simp only [_parse_timestamp, hg, if_true, div1000, fromtimestampNum]
    exact fromtimestampFrac_ok num (den * 1000) hr
  · intro num den hg hr
    simp only [_parse_timestamp, hg, Bool.false_eq_true, if_false, fromtimestampNum]
    exact fromtimestampFrac_ok num den hr
  · intro t ht
    obtain ⟨cs⟩ := t
    simp only [_parse_timestamp, parseIsoZ, pyReplaceZ_trailing cs ht]

/-- C4 witness: the normalizer evaluated at concrete numbers and strings. -/
theorem claim4_witness :
    _parse_timestamp (.int 2000000000000) = .ok (2000000000000 * 1000)
    ∧ _parse_timestamp (.int 1700000000) = .ok (1700000000 * 1000000)
    ∧ _parse_timestamp (.float (.finite 3000000000000 1))
        = .ok (roundHalfEvenDiv (3000000000000 * 1000000) (1 * 1000))
    ∧ _parse_timestamp (.float (.finite 1 2))
        = .ok (roundHalfEvenDiv (1 * 1000000) 2)
    ∧ _parse_timestamp (.str "2026-02-20") = parseIsoZ "2026-02-20"
    ∧ _parse_timestamp (.str ("2025-01-02T03:04:05" ++ "Z")) =
        match fromisoformat ("2025-01-02T03:04:05" ++ "+00:00") with
        | some u => .ok u
        | none => .error (.valueError "Invalid isoformat string") :=
  ⟨claim4_parse_timestamp.1 2000000000000 (by decide) (by decide),
   claim4_parse_timestamp.2.1 1700000000 (by decide) (by decide),
   claim4_parse_timestamp.2.2.1 3000000000000 1 (by decide) (by decide),
   claim4_parse_timestamp.2.2.2.1 1 2 (by decide) (by decide),
   claim4_parse_timestamp.2.2.2.2.1 "2026-02-20",
   claim4_parse_timestamp.2.2.2.2.2 "2025-01-02T03:04:05" (by decide)⟩

/-- C3 counterexample: the negative number `-1` does NOT make the
normalizer fail — `datetime.fromtimestamp(-1)` is a valid pre-epoch
instant on the POSIX platforms the code runs on, so the claim's "negative
numeric values fail with a ParseError" is false at this input (and no
`ParseError` class exists in the code at all). -/
theorem claim3_counterexample :
    _parse_timestamp (.int (-1)) = .ok (-1000000)
    ∧ isError (_parse_timestamp (.int (-1))) = false := ⟨rfl, rfl⟩

/-- C3 (amended): a string not conforming to ISO-8601 makes the normalizer
fail with a `ValueError` (the code defines no `ParseError`); a non-finite
number fails (`OverflowError` for infinities, `ValueError` for NaN); but a
negative finite number within the representable range does not fail — it
is interpreted as seconds before the epoch. -/
theorem claim3_timestamp_failures :
    (∀ s, fromisoformat (pyReplaceZ s) = none →
      _parse_timestamp (.str s) = .error (.valueError "Invalid isoformat string"))
    ∧ _parse_timestamp (.float .inf)
        = .error (.overflowError "cannot convert float infinity to integer")
    ∧ _parse_timestamp (.float .neginf)
        = .error (.overflowError "cannot convert float infinity to integer")
    ∧ _parse_timestamp (.float .nan)
        = .error (.valueError "cannot convert float NaN to integer")
    ∧ (∀ n : Int, n < 0 → tsInRange n 1 = true →
      _parse_timestamp (.int n) = .ok (n * 1000000)) := by
  refine ⟨?_, rfl, rfl, rfl, ?_⟩
  · intro s h
    simp only [_parse_timestamp, h]
  · intro n hneg hr
    simp only [_parse_timestamp, gtE12_int_false n (by omega), Bool.false_eq_true,
      if_false, fromtimestampNum]
    exact fromtimestamp_seconds n hr

/-- C3 witness: a malformed string fails with `ValueError`; a negative
finite number succeeds. -/
theorem claim3_witness :
    _parse_timestamp (.str "not a date") = .error (.valueError "Invalid isoformat string")
    ∧ _parse_timestamp (.int (-2)) = .ok (-2 * 1000000) :=
  ⟨claim3_timestamp_failures.1 "not a date" rfl,
   claim3_timestamp_failures.2.2.2.2 (-2) (by decide) (by decide)⟩

/-- C9: the deadline branch of `Bounty.from_dict`: a truthy numeric
deadline is ALWAYS divided by 1000 and read as epoch milliseconds — there
is no greater-than-`1e12` magnitude heuristic, unlike `_parse_timestamp`
(final conjunct: the normalizer reads the same below-`1e12` number as
seconds); a non-empty string deadline is stored verbatim; a falsy deadline
(absent, `null`, `0`, `""`) yields `None`. -/
theorem claim9_deadline_branch :
    (∀ (d : PyDict) (n : Int), pyGet d "deadline" = some (.int n) → n ≠ 0 →
      tsInRange n 1000 = true →
      parseDeadlineField d = .ok (some (.dt (n * 1000))))
    ∧ (∀ (d : PyDict) (s : String), pyGet d "deadline" = some (.str s) → s ≠ "" →
      parseDeadlineField d = .ok (some (.raw (.str s))))
    ∧ (∀ d : PyDict, pyGet d "deadline" = none → parseDeadlineField d = .ok none)
    ∧ (∀ d : PyDict, pyGet d "deadline" = some .null → parseDeadlineField d = .ok none)
    ∧ (∀ d : PyDict, pyGet d "deadline" = some (.int 0) → parseDeadlineField d = .ok none)
    ∧ (∀ d : PyDict, pyGet d "deadline" = some (.str "") → parseDeadlineField d = .ok none)
    ∧ (∀ n : Int, 0 < n → ¬n > 1000000000000 → tsInRange n 1 = true →
      _parse_timestamp (.int n) = .ok (n * 1000000)) := by
  refine ⟨?_, ?_, ?_, ?_, ?_, ?_, ?_⟩
  · intro d n hd hn hr
    have ht : (PyVal.int n).truthy = true := by
      simp [PyVal.truthy, hn]
    simp only [parseDeadlineField, hd, ht, if_true, div1000, fromtimestampNum, Nat.one_mul]
    rw [fromtimestamp_millis n hr]
    rfl
  · intro d s hd hs
    have ht : (PyVal.str s).truthy = true := by
      simp [PyVal.truthy, hs]
    simp only [parseDeadlineField, hd, ht, if_true]
  · intro d hd
    simp only [parseDeadlineField, hd]
  · intro d hd
    simp only [parseDeadlineField, hd, PyVal.truthy, Bool.false_eq_true, if_false]
  · intro d hd
    simp only [parseDeadlineField, hd]
    rfl
  · intro d hd
    simp only [parseDeadlineField, hd]
    rfl
  · intro n _ h hr
    simp only [_parse_timestamp, gtE12_int_false n h, Bool.false_eq_true, if_false,
      fromtimestampNum]
    exact fromtimestamp_seconds n hr

/-- C9 witness: the deadline branch evaluated at concrete dicts — note the
below-`1e12`-magnitude check is absent: even the seconds-scale number
1700000001 is divided by 1000. -/
theorem claim9_witness :
    parseDeadlineField [("deadline", .int 1770449294859)]
      = .ok (some (.dt (1770449294859 * 1000)))
    ∧ parseDeadlineField [("deadline", .int 1700000001)]
      = .ok (some (.dt (1700000001 * 1000)))
    ∧ parseDeadlineField [("deadline", .str "2026-02-20")]
      = .ok (some (.raw (.str "2026-02-20")))
    ∧ parseDeadlineField [] = .ok none
    ∧ parseDeadlineField [("deadline", .null)] = .ok none
    ∧ parseDeadlineField [("deadline", .int 0)] = .ok none
    ∧ parseDeadlineField [("deadline", .str "")] = .ok none
    ∧ _parse_timestamp (.int 1700000001) = .ok (1700000001 * 1000000) :=
  ⟨claim9_deadline_branch.1 [("deadline", .int 1770449294859)] 1770449294859
      rfl (by decide) (by decide),
   claim9_deadline_branch.1 [("deadline", .int 1700000001)] 1700000001
      rfl (by decide) (by decide),
   claim9_deadline_branch.2.1 [("deadline", .str "2026-02-20")] "2026-02-20"
      rfl (by decide),
   claim9_deadline_branch.2.2.1 [] rfl,
   claim9_deadline_branch.2.2.2.1 [("deadline", .null)] rfl,
   claim9_deadline_branch.2.2.2.2.1 [("deadline", .int 0)] rfl,
   claim9_deadline_branch.2.2.2.2.2.1 [("deadline", .str "")] rfl,
   claim9_deadline_branch.2.2.2.2.2.2 1700000001 (by decide) (by decide) (by decide)⟩

/-! ## C1: required fields of the `from_dict` constructors -/

lemma submission_missing (d : PyDict) (k : String) (hk : k ∈ submissionRequired)
    (h : d.lookup k = none) : isError (Submission.from_dict d) = true := by
  have hg : getItem d k = .error (.keyError k) := getItem_of_lookup_none d k h
  simp only [submissionRequired, List.mem_cons, List.not_mem_nil, or_false] at hk
  simp only [Submission.from_dict, reqStr, reqTimestamp]
  rcases hk with rfl | rfl | rfl <;>
    (rw [hg]; repeat (first | rfl | (apply isError_bind; intro a ha)))

lemma rejection_missing (d : PyDict) (k : String) (hk : k ∈ rejectionRequired)
    (h : d.lookup k = none) : isError (Rejection.from_dict d) = true := by
  have hg : getItem d k = .error (.keyError k) := getItem_of_lookup_none d k h
  simp only [rejectionRequired, List.mem_cons, List.not_mem_nil, or_false] at hk
  simp only [Rejection.from_dict, reqStr, reqTimestamp]
  rcases hk with rfl | rfl <;>
    (rw [hg]; repeat (first | rfl | (apply isError_bind; intro a ha)))

lemma pendingPayment_missing (d : PyDict) (k : String) (hk : k ∈ pendingPaymentRequired)
    (h : d.lookup k = none) : isError (PendingPayment.from_dict d) = true := by
  have hg : getItem d k = .error (.keyError k) := getItem_of_lookup_none d k h
  simp only [pendingPaymentRequired, List.mem_cons, List.not_mem_nil, or_false] at hk
  simp only [PendingPayment.from_dict, reqStr, reqInt]
  rcases hk with rfl | rfl | rfl | rfl | rfl | rfl <;>
    (rw [hg]; repeat (first | rfl | (apply isError_bind; intro a ha)))

lemma payment_missing (d : PyDict) (k : String) (hk : k ∈ paymentRequired)
    (h : d.lookup k = none) : isError (Payment.from_dict d) = true := by
  have hg : getItem d k = .error (.keyError k) := getItem_of_lookup_none d k h
  simp only [paymentRequired, List.mem_cons, List.not_mem_nil, or_false] at hk
  simp only [Payment.from_dict, reqStr, reqInt]
  rcases hk with rfl | rfl | rfl | rfl | rfl | rfl | rfl | rfl | rfl | rfl | rfl <;>
    (rw [hg]; repeat (first | rfl | (apply isError_bind; intro a ha)))

lemma bounty_missing (d : PyDict) (k : String) (hk : k ∈ bountyRequired)
    (h : d.lookup k = none) : isError (Bounty.from_dict d) = true := by
  have hg : getItem d k = .error (.keyError k) := getItem_of_lookup_none d k h
  simp only [bountyRequired, List.mem_cons, List.not_mem_nil, or_false] at hk
  simp only [Bounty.from_dict, reqStr, reqInt, reqTimestamp]
  rcases hk with rfl | rfl | rfl | rfl | rfl | rfl | rfl | rfl | rfl | rfl <;>
    (rw [hg]; repeat (first | rfl | (apply isError_bind; intro a ha)))

lemma stats_missing (d : PyDict) (k : String) (hk : k ∈ statsRequired)
    (h : d.lookup k = none) : isError (Stats.from_dict d) = true := by
  have hg : getItem d k = .error (.keyError k) := getItem_of_lookup_none d k h
  simp only [statsRequired, List.mem_cons, List.not_mem_nil, or_false] at hk
  simp only [Stats.from_dict, reqInt, reqNum, reqBool]
  rcases hk with rfl | rfl | rfl | rfl | rfl | rfl <;>
    (rw [hg]; repeat (first | rfl | (apply isError_bind; intro a ha)))

lemma tokenConfig_missing (d : PyDict) (k : String) (hk : k ∈ tokenConfigRequired)
    (h : d.lookup k = none) : isError (TokenConfig.from_dict d) = true := by
  have hg : getItem d k = .error (.keyError k) := getItem_of_lookup_none d k h
  simp only [tokenConfigRequired, List.mem_cons, List.not_mem_nil, or_false] at hk
  simp only [TokenConfig.from_dict, reqStr]
  rcases hk with rfl | rfl | rfl | rfl <;>
    (rw [hg]; repeat (first | rfl | (apply isError_bind; intro a ha)))

lemma x402Config_missing (d : PyDict) (k : String) (hk : k ∈ x402ConfigRequired)
    (h : d.lookup k = none) : isError (X402Config.from_dict d) = true := by
  have hg : getItem d k = .error (.keyError k) := getItem_of_lookup_none d k h
  simp only [x402ConfigRequired, List.mem_cons, List.not_mem_nil, or_false] at hk
  simp only [X402Config.from_dict, reqStr, reqInt]
  rcases hk with rfl | rfl | rfl | rfl | rfl | rfl <;>
    (rw [hg]; repeat (first | rfl | (apply isError_bind; intro a ha)))

/-- C1 counterexample: a `from_dict` call on an object lacking a required
field fails with the built-in `KeyError`, NOT with a `MissingFieldError` —
no such class exists anywhere in the exception hierarchy, so the claim as
stated is false at the concrete input `{}` for `Submission.from_dict`. -/
theorem claim1_counterexample :
    Submission.from_dict ([] : PyDict) = .error (.keyError "id")
    ∧ failsWithMissingField (Submission.from_dict ([] : PyDict)) = false :=
  ⟨rfl, rfl⟩

/-- C1 (amended): for every entity type and every JSON object lacking one
of that type's required fields, the `from_dict` constructor fails — but
with the built-in `KeyError` naming the missing key (when that key is the
first fault encountered in evaluation order), not with a
`MissingFieldError`, a class that does not exist in the code.  The first
eight conjuncts give the failure for an arbitrary object missing an
arbitrary required field; the last eight evaluate each constructor at `{}`
and exhibit the `KeyError` carrying the first required key read. -/
theorem claim1_missing_required_field :
    (∀ (d : PyDict) (k : String), k ∈ submissionRequired → d.lookup k = none →
      isError (Submission.from_dict d) = true)
    ∧ (∀ (d : PyDict) (k : String), k ∈ rejectionRequired → d.lookup k = none →
      isError (Rejection.from_dict d) = true)
    ∧ (∀ (d : PyDict) (k : String), k ∈ pendingPaymentRequired → d.lookup k = none →
      isError (PendingPayment.from_dict d) = true)
    ∧ (∀ (d : PyDict) (k : String), k ∈ paymentRequired → d.lookup k = none →
      isError (Payment.from_dict d) = true)
    ∧ (∀ (d : PyDict) (k : String), k ∈ bountyRequired → d.lookup k = none →
      isError (Bounty.from_dict d) = true)
    ∧ (∀ (d : PyDict) (k : String), k ∈ statsRequired → d.lookup k = none →
      isError (Stats.from_dict d) = true)
    ∧ (∀ (d : PyDict) (k : String), k ∈ tokenConfigRequired → d.lookup k = none →
      isError (TokenConfig.from_dict d) = true)
    ∧ (∀ (d : PyDict) (k : String), k ∈ x402ConfigRequired → d.lookup k = none →
      isError (X402Config.from_dict d) = true)
    ∧ Submission.from_dict ([] : PyDict) = .error (.keyError "id")
    ∧ Rejection.from_dict ([] : PyDict) = .error (.keyError "reason")
    ∧ PendingPayment.from_dict ([] : PyDict) = .error (.keyError "fee")
    ∧ Payment.from_dict ([] : PyDict) = .error (.keyError "fee")
    ∧ Bounty.from_dict ([] : PyDict) = .error (.keyError "id")
    ∧ Stats.from_dict ([] : PyDict) = .error (.keyError "totalBounties")
    ∧ TokenConfig.from_dict ([] : PyDict) = .error (.keyError "network")
    ∧ X402Config.from_dict ([] : PyDict) = .error (.keyError "version") :=
  ⟨submission_missing, rejection_missing, pendingPayment_missing, payment_missing,
   bounty_missing, stats_missing, tokenConfig_missing, x402Config_missing,
   rfl, rfl, rfl, rfl, rfl, rfl, rfl, rfl⟩

/-- C1 witness: each constructor applied to an object lacking a required
field (dicts that are non-empty but miss one required key, plus one fully
absent case), with the hypotheses discharged concretely. -/
theorem claim1_witness :
    isError (Submission.from_dict [("content", .str "c")]) = true
    ∧ isError (Rejection.from_dict [("reason", .str "r")]) = true
    ∧ isError (PendingPayment.from_dict [("fee", .int 1)]) = true
    ∧ isError (Payment.from_dict [("fee", .int 1)]) = true
    ∧ isError (Bounty.from_dict [("id", .str "143")]) = true
    ∧ isError (Stats.from_dict [("totalBounties", .int 3)]) = true
    ∧ isError (TokenConfig.from_dict [("network", .str "base")]) = true
    ∧ isError (X402Config.from_dict ([] : PyDict)) = true :=
  ⟨claim1_missing_required_field.1 [("content", .str "c")] "id" (by decide) rfl,
   claim1_missing_required_field.2.1 [("reason", .str "r")] "rejectedAt" (by decide) rfl,
   claim1_missing_required_field.2.2.1 [("fee", .int 1)] "chain" (by decide) rfl,
   claim1_missing_required_field.2.2.2.1 [("fee", .int 1)] "txHash" (by decide) rfl,
   claim1_missing_required_field.2.2.2.2.1 [("id", .str "143")] "uuid" (by decide) rfl,
   claim1_missing_required_field.2.2.2.2.2.1 [("totalBounties", .int 3)] "dbConnected"
     (by decide) rfl,
   claim1_missing_required_field.2.2.2.2.2.2.1 [("network", .str "base")] "minAmount"
     (by decide) rfl,
   claim1_missing_required_field.2.2.2.2.2.2.2.1 ([] : PyDict) "version" (by decide) rfl⟩

end Owockibot
